import Mathlib

/-!
Shallow embedding of the `logger_v2` repository (src/logger/config.py and
src/logger/custom_logger.py) together with the parts of its runtime that the
code relies on: pydantic v2 field validation (schema checks collected into a
single ValidationError; `mode="after"` field validators run per-field, with a
non-ValueError exception raised by a validator propagating immediately), the
`pathlib.Path.mkdir(parents=True, exist_ok=True)` filesystem side effect, the
stdlib `logging._nameToLevel` table and the `logging.Logger` / `Handler`
level-filtering and propagation semantics.

Machine strings are modelled as Lean `String` (lists of characters); Python
`str.strip` / `str.upper` are modelled for the ASCII range, which covers every
string the validators compare against.  The filesystem is modelled explicitly
as the set of existing directories and files plus the I/O errors that `mkdir`
and `open` would raise at given paths; wall-clock time enters only through the
already-formatted timestamp string passed to the assembler.
-/

namespace LoggerV2

/-! ## Python string primitives -/

/-- `str.upper` restricted to ASCII, as applied by `check_log_level`. -/
def pyUpper (s : String) : String :=
  ⟨s.data.map Char.toUpper⟩

/-- Drop elements from the end of a list while the predicate holds. -/
def dropEndWhile (p : Char → Bool) (l : List Char) : List Char :=
  (l.reverse.dropWhile p).reverse

/-- Drop elements satisfying `p` from both ends of a list. -/
def stripWhile (p : Char → Bool) (l : List Char) : List Char :=
  dropEndWhile p (l.dropWhile p)

/-- Python `str.strip()` with no argument: remove surrounding whitespace.
This is what pydantic's `str_strip_whitespace=True` applies to `str` fields. -/
def pyStripWS (s : String) : String :=
  ⟨stripWhile Char.isWhitespace s.data⟩

/-- Python `str.strip(chars)`: remove from both ends every character that is a
member of `chars` (a character set, not a substring). -/
def pyStripChars (s : String) (chars : String) : String :=
  ⟨stripWhile (fun c => chars.data.contains c) s.data⟩

/-! ## Paths and the filesystem -/

/-- A filesystem path, as its list of components. -/
abbrev FPath := List String

/-- `pathlib.Path(s)` for a plain relative string: split on the separator. -/
def pathOfString (s : String) : FPath :=
  (s.splitOn "/").filter (fun c => c ≠ "")

/-- All nonempty ancestors of a path, the path itself included: what
`Path.mkdir(parents=True)` brings into existence. -/
def ancestorsOf : FPath → List FPath
  | [] => []
  | c :: rest => [c] :: (ancestorsOf rest).map (c :: ·)

/-- The detail string of a Python `OSError`. -/
abbrev OSErr := String

/-- The filesystem state visible to the program: the directories and files that
exist, plus the I/O faults that `mkdir` and `open` would hit at given paths. -/
structure FileSystem where
  dirs : List FPath
  files : List FPath
  mkdirErr : List (FPath × OSErr)
  openErr : List (FPath × OSErr)
deriving Repr, DecidableEq

/-- The path exists as a directory (the root / current directory always
exists). -/
def FileSystem.dirExists (fs : FileSystem) (p : FPath) : Bool :=
  p = [] || p ∈ fs.dirs

/-- `Path.mkdir(parents=True, exist_ok=True)`: a no-op when the directory
already exists; otherwise create the directory and all missing ancestors, or
raise the `OSError` the filesystem holds for this path. -/
def FileSystem.mkdirParents (fs : FileSystem) (p : FPath) :
    Except OSErr FileSystem :=
  if fs.dirExists p then .ok fs
  else
    match fs.mkdirErr.lookup p with
    | some e => .error e
    | none =>
        .ok { fs with
              dirs := fs.dirs ++ (ancestorsOf p).filter (fun q => q ∉ fs.dirs) }

/-- `open(path, mode="a")`: fails when the containing directory does not exist
or when the filesystem holds an `OSError` for this path; otherwise the file
exists afterwards. -/
def FileSystem.openAppend (fs : FileSystem) (p : FPath) :
    Except OSErr FileSystem :=
  if ¬ fs.dirExists p.dropLast then .error "ENOENT: no such file or directory"
  else
    match fs.openErr.lookup p with
    | some e => .error e
    | none =>
        .ok { fs with
              files := if p ∈ fs.files then fs.files else fs.files ++ [p] }

/-! ## Raw configuration input (the keyword arguments of `LoggerConfig(**data)`) -/

/-- A raw Python value supplied for a configuration field. -/
inductive RawValue
  | vStr (s : String)
  | vInt (n : Int)
  | vBool (b : Bool)
  | vPath (p : FPath)
deriving Repr, DecidableEq

/-- The raw keyword mapping handed to `LoggerConfig`: each declared field is
present or absent, and `extra` lists the names of unrecognized keys. -/
structure RawInput where
  log_dir : Option RawValue
  log_level : Option RawValue
  log_verbose : Option RawValue
  max_bytes : Option RawValue
  backup_count : Option RawValue
  extra : List String
deriving Repr, DecidableEq

/-! ## Errors -/

/-- One entry of a pydantic `ValidationError`, identifying the field and the
reason. -/
inductive FieldError
  | missing (field : String)
  | wrongType (field : String)
  | stringTooShort (field : String)
  | extraForbidden (field : String)
deriving Repr, DecidableEq

/-- The field an entry names. -/
def FieldError.fieldName : FieldError → String
  | .missing f => f
  | .wrongType f => f
  | .stringTooShort f => f
  | .extraForbidden f => f

/-- The `LoggerConfigError` values `validate` can surface, one constructor per
raise site in `config.py`:
* `schemaViolation`: `LoggerConfig.__init__` catching a pydantic
  `ValidationError` and re-raising `LoggerConfigError(f"Invalid configuration: {e}")`;
* `invalidLevel`: the raise in `check_log_level`, whose wrapped `ValueError`
  names the allowed set;
* `directoryCreationFailed`: the raise in `ensure_log_dir_exists`, wrapping the
  original `OSError`. -/
inductive ConfigError
  | schemaViolation (errs : List FieldError)
  | invalidLevel (allowed : List String)
  | directoryCreationFailed (dir : FPath) (cause : OSErr)
deriving Repr, DecidableEq

/-- Render a path the way the f-string in `ensure_log_dir_exists` would. -/
def FPath.render (p : FPath) : String :=
  String.intercalate "/" p

/-- The `message` attribute of the corresponding `LoggerConfigError`. -/
def ConfigError.message : ConfigError → String
  | .schemaViolation errs =>
      "Invalid configuration: " ++
        String.intercalate "; " (errs.map (·.fieldName))
  | .invalidLevel _ => "LoggerConfig validation failed for log_level"
  | .directoryCreationFailed p _ =>
      "LoggerConfig validation failed for log_dir: " ++ p.render

/-- The fields a caller can identify from the error. -/
def ConfigError.mentionedFields : ConfigError → List String
  | .schemaViolation errs => errs.map (·.fieldName)
  | .invalidLevel _ => ["log_level"]
  | .directoryCreationFailed _ _ => ["log_dir"]

/-! ## The validated record -/

/-- The validated configuration record (`LoggerConfig` after a successful
`__init__`). -/
structure LoggerConfig where
  log_dir : FPath
  log_level : String
  log_verbose : Bool
  max_bytes : Int
  backup_count : Int
deriving Repr, DecidableEq

/-- The allowed-set literal of `check_log_level`. -/
def allowedLevels : List String :=
  ["DEBUG", "INFO", "WARNING", "ERROR", "CRITICAL"]

/-! ## Per-field schema validation (pydantic core, before field validators) -/

/-- Inner validation of `log_dir : Path`: a `Path` is accepted as is, a `str`
is parsed as a path, anything else is a type error; a missing required field
is an error. -/
def validateDirInner : Option RawValue → Except FieldError FPath
  | none => .error (.missing "log_dir")
  | some (.vPath p) => .ok p
  | some (.vStr s) => .ok (pathOfString s)
  | some _ => .error (.wrongType "log_dir")

/-- Inner validation of `log_level : str` under
`str_strip_whitespace=True, str_min_length=1`: strip surrounding whitespace,
then require at least one character. -/
def validateLevelInner : Option RawValue → Except FieldError String
  | none => .error (.missing "log_level")
  | some (.vStr s) =>
      let t := pyStripWS s
      if t.length ≥ 1 then .ok t else .error (.stringTooShort "log_level")
  | some _ => .error (.wrongType "log_level")

/-- Pydantic's lax coercion of a string to `bool`. -/
def boolOfString (s : String) : Option Bool :=
  let t := pyUpper s
  if t ∈ ["TRUE", "T", "Y", "YES", "ON", "1"] then some true
  else if t ∈ ["FALSE", "F", "N", "NO", "OFF", "0"] then some false
  else none

/-- Inner validation of `log_verbose : bool`: a `bool` as is; pydantic's lax
mode also accepts the integers 0/1 and the usual boolean strings. -/
def validateBoolInner : Option RawValue → Except FieldError Bool
  | none => .error (.missing "log_verbose")
  | some (.vBool b) => .ok b
  | some (.vInt n) =>
      if n = 0 then .ok false
      else if n = 1 then .ok true
      else .error (.wrongType "log_verbose")
  | some (.vStr s) =>
      match boolOfString s with
      | some b => .ok b
      | none => .error (.wrongType "log_verbose")
  | some _ => .error (.wrongType "log_verbose")

/-- Fold a nonempty all-digit character list into a number; `none` on any
non-digit. -/
def digitsToNat : List Char → Nat → Option Nat
  | [], acc => some acc
  | c :: cs, acc =>
      if c.isDigit then digitsToNat cs (acc * 10 + (c.toNat - 48))
      else none

/-- Python `int(s)` on a plain string: an optional sign followed by at least
one digit (what pydantic's lax mode accepts for an `int` field). -/
def pyIntOfString (s : String) : Option Int :=
  match s.data with
  | [] => none
  | '-' :: cs =>
      if cs = [] then none
      else (digitsToNat cs 0).map (fun n => -(n : Int))
  | '+' :: cs =>
      if cs = [] then none
      else (digitsToNat cs 0).map (fun n => (n : Int))
  | cs => (digitsToNat cs 0).map (fun n => (n : Int))

/-- Inner validation of an `int` field with a default: absent means the
default; an `int` is accepted; a numeric string is coerced; `bool` and other
values are type errors. -/
def validateIntInner (field : String) (default : Int) :
    Option RawValue → Except FieldError Int
  | none => .ok default
  | some (.vInt n) => .ok n
  | some (.vStr s) =>
      match pyIntOfString s with
      | some n => .ok n
      | none => .error (.wrongType field)
  | some _ => .error (.wrongType field)

/-! ## Field validators (`mode="after"`) -/

/-- `check_log_level`: uppercase the (already stripped) value and require
membership in the fixed five-value set; on failure raise a `LoggerConfigError`
wrapping a `ValueError` that names the allowed set.  Because
`LoggerConfigError` is not a `ValueError`, pydantic does not turn it into a
`ValidationError` entry: it propagates out of validation immediately. -/
def check_log_level (v : String) : Except ConfigError String :=
  let u := pyUpper v
  if u ∈ allowedLevels then .ok u
  else .error (.invalidLevel allowedLevels)

/-- `ensure_log_dir_exists`: `v.mkdir(parents=True, exist_ok=True)`, wrapping
an `OSError` in a `LoggerConfigError` that, like the level validator's, is not
caught by pydantic and propagates immediately. -/
def ensure_log_dir_exists (fs : FileSystem) (v : FPath) :
    Except ConfigError (FPath × FileSystem) :=
  match fs.mkdirParents v with
  | .ok fs' => .ok (v, fs')
  | .error e => .error (.directoryCreationFailed v e)

/-! ## The whole of `validate` = `LoggerConfig.__init__` -/

/-- The one-entry error list of a failed inner validation. -/
def errList {α : Type} : Except FieldError α → List FieldError
  | .ok _ => []
  | .error e => [e]

/-- Final aggregation: pydantic collects every schema-level error (inner field
errors plus `extra="forbid"` violations) into a single `ValidationError`, which
`LoggerConfig.__init__` re-raises as one `LoggerConfigError`.  Reached only
when neither field validator raised. -/
def assembleConfig (dirVal : Option FPath) (lvlVal : Option String)
    (verbR : Except FieldError Bool) (mbR bcR : Except FieldError Int)
    (extra : List String) (dirLvlErrs : List FieldError) :
    Except ConfigError LoggerConfig :=
  let errs := dirLvlErrs ++ errList verbR ++ errList mbR ++ errList bcR
      ++ extra.map FieldError.extraForbidden
  match dirVal, lvlVal, verbR, mbR, bcR with
  | some p, some u, .ok b, .ok mb, .ok bc =>
      if extra.isEmpty then .ok ⟨p, u, b, mb, bc⟩
      else .error (.schemaViolation errs)
  | _, _, _, _, _ => .error (.schemaViolation errs)

/-- `validate raw fs` runs `LoggerConfig(**raw)` against filesystem `fs` and
returns the filesystem afterwards together with the validated record or the
`LoggerConfigError` the caller sees.  It mirrors pydantic v2's order of work:
fields are validated in declaration order (`log_dir` first, then `log_level`,
then the rest); an `after` validator runs exactly when its own field's inner
validation succeeded; a `LoggerConfigError` raised by a validator aborts the
whole call at once (keeping any directory already created), while schema-level
errors are collected and reported together at the end. -/
def validate (raw : RawInput) (fs : FileSystem) :
    FileSystem × Except ConfigError LoggerConfig :=
  let verbR := validateBoolInner raw.log_verbose
  let mbR := validateIntInner "max_bytes" 1048576 raw.max_bytes
  let bcR := validateIntInner "backup_count" 0 raw.backup_count
  match validateDirInner raw.log_dir with
  | .ok p =>
      match ensure_log_dir_exists fs p with
      | .error ce => (fs, .error ce)
      | .ok (_, fs') =>
          match validateLevelInner raw.log_level with
          | .ok t =>
              match check_log_level t with
              | .error ce => (fs', .error ce)
              | .ok u =>
                  (fs', assembleConfig (some p) (some u) verbR mbR bcR raw.extra [])
          | .error e =>
              (fs', assembleConfig (some p) none verbR mbR bcR raw.extra [e])
  | .error ed =>
      match validateLevelInner raw.log_level with
      | .ok t =>
          match check_log_level t with
          | .error ce => (fs, .error ce)
          | .ok u =>
              (fs, assembleConfig none (some u) verbR mbR bcR raw.extra [ed])
      | .error e =>
          (fs, assembleConfig none none verbR mbR bcR raw.extra [ed, e])

/-! ## Assignment with `validate_assignment=True`

Assigning to a field of a constructed `LoggerConfig` re-runs that field's
validation (inner schema checks, then its `after` validator); on any failure
the exception propagates and the instance keeps its previous value. -/

/-- A field assignment `cfg.<field> = v` on a constructed record. -/
inductive AssignOp
  | setDir (v : RawValue)
  | setLevel (v : RawValue)
  | setVerbose (v : RawValue)
  | setMaxBytes (v : RawValue)
  | setBackupCount (v : RawValue)
deriving Repr, DecidableEq

/-- Apply one assignment: on successful re-validation the field is updated (and
for `log_dir` the directory is created); on failure the raised error leaves the
instance, and the filesystem, exactly as they were. -/
def applyAssign (st : LoggerConfig × FileSystem) (op : AssignOp) :
    LoggerConfig × FileSystem :=
  let (cfg, fs) := st
  match op with
  | .setDir v =>
      match validateDirInner (some v) with
      | .error _ => (cfg, fs)
      | .ok p =>
          match ensure_log_dir_exists fs p with
          | .error _ => (cfg, fs)
          | .ok (_, fs') => ({ cfg with log_dir := p }, fs')
  | .setLevel v =>
      match validateLevelInner (some v) with
      | .error _ => (cfg, fs)
      | .ok t =>
          match check_log_level t with
          | .error _ => (cfg, fs)
          | .ok u => ({ cfg with log_level := u }, fs)
  | .setVerbose v =>
      match validateBoolInner (some v) with
      | .error _ => (cfg, fs)
      | .ok b => ({ cfg with log_verbose := b }, fs)
  | .setMaxBytes v =>
      match validateIntInner "max_bytes" 1048576 (some v) with
      | .error _ => (cfg, fs)
      | .ok n => ({ cfg with max_bytes := n }, fs)
  | .setBackupCount v =>
      match validateIntInner "backup_count" 0 (some v) with
      | .error _ => (cfg, fs)
      | .ok n => ({ cfg with backup_count := n }, fs)

/-- A whole sequence of subsequent operations on the instance. -/
def applyAssigns (st : LoggerConfig × FileSystem) (ops : List AssignOp) :
    LoggerConfig × FileSystem :=
  ops.foldl applyAssign st

/-! ## `ColoredFormatter` and the two line formats -/

namespace ColoredFormatter

/-- The ANSI reset sequence `"\033[0m"`. -/
def RESET : String := "\x1b[0m"

/-- The `COLORS` table: severity label to ANSI color code. -/
def COLORS : String → Option String := fun s =>
  if s = "DEBUG" then some "\x1b[92m"        -- Green
  else if s = "INFO" then some "\x1b[94m"    -- Blue
  else if s = "WARNING" then some "\x1b[93m" -- Yellow
  else if s = "ERROR" then some "\x1b[91m"   -- Red
  else if s = "CRITICAL" then some "\x1b[95m" -- Magenta
  else none

/-- The body of `ColoredFormatter.format` that computes
`record.levelname_colored`: strip stray reset-code characters from both ends of
the level name, look up the color (falling back to `RESET`), and wrap. -/
def colorize (levelname : String) : String :=
  let levelname_stripped := pyStripChars levelname RESET
  let log_color := (COLORS levelname_stripped).getD RESET
  log_color ++ levelname_stripped ++ RESET

end ColoredFormatter

/-- The attributes of a `logging.LogRecord` that the two format strings
interpolate. -/
structure LogRecord where
  asctime : String
  levelname : String
  name : String
  lineno : Nat
  message : String
deriving Repr, DecidableEq

/-- The shared line template
`"%(asctime)s [<level field>] %(name)s:%(lineno)d: %(message)s"`. -/
def lineTemplate (asctime levelField name : String) (lineno : Nat)
    (message : String) : String :=
  asctime ++ " [" ++ levelField ++ "] " ++ name ++ ":" ++ toString lineno
    ++ ": " ++ message

/-- What the console handler's `ColoredFormatter` produces for a record: the
template with `%(levelname_colored)s`. -/
def consoleFormat (r : LogRecord) : String :=
  lineTemplate r.asctime (ColoredFormatter.colorize r.levelname) r.name
    r.lineno r.message

/-- What the file handler's plain `logging.Formatter` produces: the same
template with `%(levelname)s`. -/
def fileFormat (r : LogRecord) : String :=
  lineTemplate r.asctime r.levelname r.name r.lineno r.message

/-! ## The logger assembler (`CustomLogger.__init__` + `_setup_logging`) -/

/-- The stdlib `logging._nameToLevel` table. -/
def nameToLevelTable : List (String × Nat) :=
  [("CRITICAL", 50), ("FATAL", 50), ("ERROR", 40), ("WARN", 30),
   ("WARNING", 30), ("INFO", 20), ("DEBUG", 10), ("NOTSET", 0)]

/-- `logging._nameToLevel.get(name, logging.INFO)`. -/
def nameToLevelGet (s : String) : Nat :=
  (nameToLevelTable.lookup s).getD 20

/-- A handler attached to the logger. -/
inductive Sink
  | console (level : Nat)
  | rotatingFile (level : Nat) (path : FPath) (maxBytes : Int)
      (backupCount : Int)
deriving Repr, DecidableEq

/-- The handler's threshold (`Handler.level`). -/
def Sink.level : Sink → Nat
  | .console l => l
  | .rotatingFile l _ _ _ => l

/-- The formatter each handler was given in `_setup_logging`. -/
def Sink.formatRecord : Sink → LogRecord → String
  | .console _, r => consoleFormat r
  | .rotatingFile _ _ _ _, r => fileFormat r

/-- The state of a constructed `CustomLogger`: the attributes `__init__`
records plus the `logging.Logger` state it configures. -/
structure CustomLogger where
  name : String
  log_level : Nat
  log_file : FPath
  verbose : Bool
  max_bytes : Int
  backup_count : Int
  level : Nat
  handlers : List Sink
  propagate : Bool
deriving Repr, DecidableEq

/-- `CustomLogger(name, cfg)` at the moment whose formatted timestamp is
`timestamp`: resolve the numeric level, compute the log-file path, create the
console handler, then the rotating file handler — whose construction opens the
file in append mode and propagates any `OSError` unchanged, in which case no
logger value exists and nothing was attached — and finally attach exactly the
two handlers and disable propagation. -/
def CustomLogger.build (name : String) (cfg : LoggerConfig)
    (timestamp : String) (fs : FileSystem) :
    FileSystem × Except OSErr CustomLogger :=
  let lvl := nameToLevelGet cfg.log_level
  let file := cfg.log_dir ++ [timestamp ++ ".log"]
  match fs.openAppend file with
  | .error e => (fs, .error e)
  | .ok fs' =>
      (fs',
       .ok { name := name
             log_level := lvl
             log_file := file
             verbose := cfg.log_verbose
             max_bytes := cfg.max_bytes
             backup_count := cfg.backup_count
             level := lvl
             handlers := [Sink.console lvl,
                          Sink.rotatingFile lvl file cfg.max_bytes cfg.backup_count]
             propagate := false })

/-- `Logger.isEnabledFor`: the record level must reach the logger's effective
level (the logger's own level here, which is never `NOTSET`). -/
def CustomLogger.isEnabledFor (lg : CustomLogger) (msgLevel : Nat) : Bool :=
  lg.level ≤ msgLevel

/-- The sinks that receive a record logged at `msgLevel`: nothing if the logger
threshold drops it; otherwise every attached handler whose own level it
reaches (`callHandlers`). -/
def CustomLogger.deliveredSinks (lg : CustomLogger) (msgLevel : Nat) :
    List Sink :=
  if lg.isEnabledFor msgLevel then
    lg.handlers.filter (fun s => s.level ≤ msgLevel)
  else []

/-- Whether `callHandlers` walks up to ancestor loggers for this record: only
when the record is emitted at all and `propagate` is set. -/
def CustomLogger.ancestorsReceive (lg : CustomLogger) (msgLevel : Nat) : Bool :=
  lg.isEnabledFor msgLevel && lg.propagate

/-! ## Concrete fixtures -/

/-- An empty filesystem with no faults. -/
def fs0 : FileSystem := ⟨[], [], [], []⟩

/-- Classifier: is the result the `InvalidLevel` failure? -/
def isInvalidLevelResult : Except ConfigError LoggerConfig → Bool
  | .error (.invalidLevel _) => true
  | _ => false

/-! # Theorems -/

/-- A `String` distinct from `""` has at least one character. -/
theorem one_le_length_of_ne_empty (t : String) (h : t ≠ "") : 1 ≤ t.length := by
  cases t with
  | mk d =>
    cases d with
    | nil => exact absurd rfl h
    | cons c cs => simp [String.length]

/-- A raw input whose `log_level` is whitespace-only: trimmed and uppercased it
is not in the allowed set, yet `validate` rejects it with the aggregated
schema failure (pydantic's `str_min_length=1` fires first), not with
`InvalidLevel`. -/
def rawC1 : RawInput :=
  ⟨some (.vPath ["tmp", "logs"]), some (.vStr "   "), some (.vBool true),
   none, none, []⟩

/-- C1 counterexample: for the input `rawC1` the trimmed, uppercased
`log_level` is outside the five-value set, but `validate` fails with a
`SchemaViolation` (string too short), not with the claimed `InvalidLevel`. -/
theorem C1_counterexample :
    pyUpper (pyStripWS "   ") ∉ allowedLevels
    ∧ (validate rawC1 fs0).2
        = .error (.schemaViolation [.stringTooShort "log_level"])
    ∧ isInvalidLevelResult (validate rawC1 fs0).2 = false :=
  ⟨by decide, rfl, rfl⟩

/-- C1 (amended): for a raw input whose `log_level` is a string that is
**non-empty after trimming** and whose other fields validate, `validate`
succeeds exactly when the trimmed, uppercased value is in the five-value set —
producing a record carrying that uppercase form — and otherwise fails with the
`InvalidLevel` error naming the allowed set.  (Empty or whitespace-only
`log_level` strings instead fail with the `SchemaViolation` of
`str_min_length=1`, as `C1_counterexample` shows.) -/
theorem C1_amended (raw : RawInput) (fs fs' : FileSystem) (s : String)
    (p : FPath) (b : Bool) (mb bc : Int)
    (hlvl : raw.log_level = some (RawValue.vStr s))
    (hne : pyStripWS s ≠ "")
    (hdir : validateDirInner raw.log_dir = .ok p)
    (hmk : fs.mkdirParents p = .ok fs')
    (hvb : validateBoolInner raw.log_verbose = .ok b)
    (hmb : validateIntInner "max_bytes" 1048576 raw.max_bytes = .ok mb)
    (hbc : validateIntInner "backup_count" 0 raw.backup_count = .ok bc)
    (hx : raw.extra = []) :
    (pyUpper (pyStripWS s) ∈ allowedLevels →
      (validate raw fs).2 = .ok ⟨p, pyUpper (pyStripWS s), b, mb, bc⟩)
    ∧ (pyUpper (pyStripWS s) ∉ allowedLevels →
      (validate raw fs).2 = .error (.invalidLevel allowedLevels)) := by
  have hlen : 1 ≤ (pyStripWS s).length := one_le_length_of_ne_empty _ hne
  constructor
  · intro hmem
    simp [validate, ensure_log_dir_exists, hdir, hmk, hlvl, validateLevelInner,
      hlen, check_log_level, hmem, assembleConfig, hvb, hmb, hbc, hx, errList]
  · intro hmem
    simp [validate, ensure_log_dir_exists, hdir, hmk, hlvl, validateLevelInner,
      hlen, check_log_level, hmem, assembleConfig, hvb, hmb, hbc, hx, errList]

/-- A fully valid raw input with mixed-case, padded level string. -/
def rawC1w : RawInput :=
  ⟨some (.vPath ["w1"]), some (.vStr " debug "), some (.vBool true),
   none, none, []⟩

/-- C1 witness: the amended theorem applied at `rawC1w` yields a record whose
level is the uppercase `"DEBUG"`. -/
theorem C1_witness :
    (validate rawC1w fs0).2 = .ok ⟨["w1"], "DEBUG", true, 1048576, 0⟩ := by
  have h := C1_amended rawC1w fs0 ⟨[["w1"]], [], [], []⟩ " debug " ["w1"]
    true 1048576 0 rfl (by decide) rfl rfl rfl rfl rfl rfl
  exact h.1 (by decide)

/-- The record a successful `build` returns, as a function of its inputs. -/
theorem build_ok_elim (name ts : String) (cfg : LoggerConfig)
    (fs fs' : FileSystem) (lg : CustomLogger)
    (hb : CustomLogger.build name cfg ts fs = (fs', .ok lg)) :
    lg = { name := name
           log_level := nameToLevelGet cfg.log_level
           log_file := cfg.log_dir ++ [ts ++ ".log"]
           verbose := cfg.log_verbose
           max_bytes := cfg.max_bytes
           backup_count := cfg.backup_count
           level := nameToLevelGet cfg.log_level
           handlers := [Sink.console (nameToLevelGet cfg.log_level),
                        Sink.rotatingFile (nameToLevelGet cfg.log_level)
                          (cfg.log_dir ++ [ts ++ ".log"]) cfg.max_bytes
                          cfg.backup_count]
           propagate := false } := by
  simp only [CustomLogger.build] at hb
  cases ho : fs.openAppend (cfg.log_dir ++ [ts ++ ".log"]) with
  | error e =>
      rw [ho] at hb
      simp at hb
  | ok fs2 =>
      rw [ho] at hb
      simp only [Prod.mk.injEq, Except.ok.injEq] at hb
      exact hb.2.symm

/-- C2: a successful `build` resolves the validated severity string to the
numeric threshold `10 * (rank + 1)` — a strictly increasing function of the
label's ordinal rank in the fixed order DEBUG < INFO < WARNING < ERROR <
CRITICAL — installs that same number as the threshold of the logger and of
both attached sinks, and a message logged strictly below it reaches neither
sink. -/
theorem C2_threshold_filters_both_sinks (name ts : String) (cfg : LoggerConfig)
    (fs fs' : FileSystem) (lg : CustomLogger)
    (hlv : cfg.log_level ∈ allowedLevels)
    (hb : CustomLogger.build name cfg ts fs = (fs', .ok lg)) :
    lg.level = 10 * (allowedLevels.indexOf cfg.log_level + 1)
    ∧ lg.log_level = lg.level
    ∧ (∀ sk ∈ lg.handlers, sk.level = lg.level)
    ∧ (∀ m, m < lg.level → lg.deliveredSinks m = []) := by
  have hlg := build_ok_elim name ts cfg fs fs' lg hb
  subst hlg
  refine ⟨?_, rfl, ?_, ?_⟩
  · simp only [allowedLevels, List.mem_cons, List.not_mem_nil, or_false] at hlv
    rcases hlv with h | h | h | h | h <;> rw [h] <;> rfl
  · intro sk hsk
    simp only [List.mem_cons, List.not_mem_nil, or_false] at hsk
    rcases hsk with rfl | rfl <;> rfl
  · intro m hm
    have : ¬ (nameToLevelGet cfg.log_level ≤ m) := Nat.not_le.mpr hm
    simp [CustomLogger.deliveredSinks, CustomLogger.isEnabledFor, this]

/-- A validated fixture configuration. -/
def cfgW : LoggerConfig := ⟨["l"], "WARNING", false, 5, 1⟩

/-- A filesystem on which `cfgW.log_dir` exists. -/
def fsW : FileSystem := ⟨[["l"]], [], [], []⟩

/-- The logger `build` assembles from `cfgW` at timestamp `"ts"`. -/
def lgW : CustomLogger :=
  ⟨"t", 30, ["l", "ts.log"], false, 5, 1, 30,
   [Sink.console 30, Sink.rotatingFile 30 ["l", "ts.log"] 5 1], false⟩

/-- C2 witness: at the concrete WARNING configuration the threshold is 30 =
10 * (rank 2 + 1) and a DEBUG (10) message is delivered to no sink. -/
theorem C2_witness :
    lgW.level = 10 * (allowedLevels.indexOf "WARNING" + 1)
    ∧ lgW.deliveredSinks 10 = [] := by
  have h := C2_threshold_filters_both_sinks "t" "ts" cfgW fsW
    ⟨[["l"]], [["l", "ts.log"]], [], []⟩ lgW (by decide) rfl
  exact ⟨h.1, h.2.2.2 10 (by decide)⟩

/-- C3: a logger produced by `build` holds exactly two sinks — one console and
one rotating file — has propagation disabled, and for no message level does
`callHandlers` ever continue to an ancestor logging destination. -/
theorem C3_two_sinks_no_propagation (name ts : String) (cfg : LoggerConfig)
    (fs fs' : FileSystem) (lg : CustomLogger)
    (hb : CustomLogger.build name cfg ts fs = (fs', .ok lg)) :
    lg.handlers = [Sink.console lg.level,
                   Sink.rotatingFile lg.level lg.log_file lg.max_bytes
                     lg.backup_count]
    ∧ lg.propagate = false
    ∧ (∀ m, lg.ancestorsReceive m = false) := by
  have hlg := build_ok_elim name ts cfg fs fs' lg hb
  subst hlg
  refine ⟨rfl, rfl, ?_⟩
  intro m
  simp [CustomLogger.ancestorsReceive]

/-- C3 witness: the concrete built logger has the console and file sink, no
others, propagation off, and ancestors receive nothing even for CRITICAL. -/
theorem C3_witness :
    lgW.handlers = [Sink.console 30, Sink.rotatingFile 30 ["l", "ts.log"] 5 1]
    ∧ lgW.propagate = false
    ∧ lgW.ancestorsReceive 50 = false := by
  have h := C3_two_sinks_no_propagation "t" "ts" cfgW fsW
    ⟨[["l"]], [["l", "ts.log"]], [], []⟩ lgW rfl
  exact ⟨h.1, h.2.1, h.2.2 50⟩

/-! ## ANSI-escape bookkeeping for the formatter claims -/

/-- The ANSI escape character `"\033"`. -/
def escChar : Char := Char.ofNat 27

/-- The string contains no ANSI escape character (hence no ANSI escape
sequence). -/
def escFree (s : String) : Prop := ∀ c ∈ s.data, c ≠ escChar

instance (s : String) : Decidable (escFree s) := by
  unfold escFree
  exact List.decidableBAll _ _

/-- Appending two strings concatenates their character lists. -/
theorem string_data_append (s t : String) : (s ++ t).data = s.data ++ t.data := by
  cases s
  cases t
  rfl

/-- `escFree` is closed under append. -/
theorem escFree_append (s t : String) (hs : escFree s) (ht : escFree t) :
    escFree (s ++ t) := by
  intro c hc
  rw [string_data_append] at hc
  rcases List.mem_append.mp hc with h | h
  · exact hs c h
  · exact ht c h

/-- No decimal digit character is the escape character. -/
theorem digitChar_ne_esc : ∀ m, m < 10 → Nat.digitChar m ≠ escChar := by decide

/-- `Nat.toDigitsCore` in base 10 only ever conses digit characters. -/
theorem toDigitsCore_ne_esc (fuel : Nat) : ∀ (n : Nat) (acc : List Char),
    (∀ c ∈ acc, c ≠ escChar) →
    ∀ c ∈ Nat.toDigitsCore 10 fuel n acc, c ≠ escChar := by
  induction fuel with
  | zero =>
      intro n acc hacc c hc
      exact hacc c hc
  | succ f ih =>
      intro n acc hacc c hc
      have hd : Nat.digitChar (n % 10) ≠ escChar :=
        digitChar_ne_esc _ (Nat.mod_lt _ (by norm_num))
      simp only [Nat.toDigitsCore] at hc
      split at hc
      · rcases List.mem_cons.mp hc with rfl | h
        · exact hd
        · exact hacc c h
      · refine ih _ _ ?_ c hc
        intro x hx
        rcases List.mem_cons.mp hx with rfl | h
        · exact hd
        · exact hacc x h

/-- The decimal rendering of a natural number (what `%(lineno)d` inserts)
contains no escape character. -/
theorem escFree_toString_nat (n : Nat) : escFree (toString n) := by
  intro c hc
  exact toDigitsCore_ne_esc (n + 1) n [] (by intro x hx; cases hx) c hc

/-- The shared line template introduces no escape character of its own. -/
theorem escFree_lineTemplate (a lf nm : String) (ln : Nat) (msg : String)
    (ha : escFree a) (hl : escFree lf) (hn : escFree nm) (hm : escFree msg) :
    escFree (lineTemplate a lf nm ln msg) := by
  unfold lineTemplate
  repeat' apply escFree_append
  all_goals first
    | assumption
    | exact escFree_toString_nat ln
    | decide

/-- For an untouched label from the allowed set, `colorize` is the bare
color-wrap: color code, label, then the reset code. -/
theorem colorize_eq_of_allowed (lvl : String) (hlv : lvl ∈ allowedLevels) :
    ColoredFormatter.colorize lvl
      = (ColoredFormatter.COLORS lvl).getD ColoredFormatter.RESET
        ++ lvl ++ ColoredFormatter.RESET := by
  simp only [allowedLevels, List.mem_cons, List.not_mem_nil, or_false] at hlv
  rcases hlv with h | h | h | h | h <;> rw [h] <;> rfl

/-- C4: for a record at any of the five severities, the console formatter
emits the shared line template with the severity label wrapped in its
severity-specific color code and immediately-following reset code — with the
mapping DEBUG→green(92), INFO→blue(94), WARNING→yellow(93), ERROR→red(91),
CRITICAL→magenta(95) — while the file formatter emits the same template with
the plain label and, for escape-free record fields, an output containing no
ANSI escape character at all. -/
theorem C4_console_colored_file_plain (r : LogRecord) (lvl : String)
    (hlev : r.levelname = lvl) (hlv : lvl ∈ allowedLevels) :
    (ColoredFormatter.COLORS "DEBUG" = some "\x1b[92m"
      ∧ ColoredFormatter.COLORS "INFO" = some "\x1b[94m"
      ∧ ColoredFormatter.COLORS "WARNING" = some "\x1b[93m"
      ∧ ColoredFormatter.COLORS "ERROR" = some "\x1b[91m"
      ∧ ColoredFormatter.COLORS "CRITICAL" = some "\x1b[95m")
    ∧ consoleFormat r
        = lineTemplate r.asctime
            ((ColoredFormatter.COLORS lvl).getD ColoredFormatter.RESET
              ++ lvl ++ ColoredFormatter.RESET)
            r.name r.lineno r.message
    ∧ fileFormat r = lineTemplate r.asctime lvl r.name r.lineno r.message
    ∧ (escFree r.asctime → escFree r.name → escFree r.message →
        escFree (fileFormat r)) := by
  refine ⟨⟨rfl, rfl, rfl, rfl, rfl⟩, ?_, ?_, ?_⟩
  · unfold consoleFormat
    rw [hlev, colorize_eq_of_allowed lvl hlv]
  · unfold fileFormat
    rw [hlev]
  · intro ha hn hm
    unfold fileFormat
    rw [hlev]
    have hfl : escFree lvl := by
      simp only [allowedLevels, List.mem_cons, List.not_mem_nil, or_false] at hlv
      rcases hlv with h | h | h | h | h <;> rw [h] <;> decide
    exact escFree_lineTemplate _ _ _ _ _ ha hfl hn hm

/-- A concrete CRITICAL record with escape-free fields. -/
def recC4 : LogRecord := ⟨"2026-10-12 00:00:00", "CRITICAL", "app", 7, "boom"⟩

/-- C4 witness: at the concrete CRITICAL record the console line carries the
magenta code and reset around the label and the file line is the plain,
escape-free template instance. -/
theorem C4_witness :
    consoleFormat recC4
      = "2026-10-12 00:00:00 [\x1b[95mCRITICAL\x1b[0m] app:7: boom"
    ∧ fileFormat recC4 = "2026-10-12 00:00:00 [CRITICAL] app:7: boom"
    ∧ escFree (fileFormat recC4) := by
  have h := C4_console_colored_file_plain recC4 "CRITICAL" rfl (by decide)
  refine ⟨?_, ?_, h.2.2.2 (by decide) (by decide) (by decide)⟩
  · rw [h.2.1]
    rfl
  · rw [h.2.2.1]
    rfl

/-! ## C9: defensive idempotence of the coloring -/

/-- `k` copies of the reset sequence. -/
def repRESET : Nat → String
  | 0 => ""
  | k + 1 => ColoredFormatter.RESET ++ repRESET k

/-- Every character of `repRESET k` is a character of the reset sequence. -/
theorem mem_repRESET (k : Nat) (c : Char) (h : c ∈ (repRESET k).data) :
    c ∈ ColoredFormatter.RESET.data := by
  induction k with
  | zero => cases h
  | succ k ih =>
      rw [repRESET, string_data_append] at h
      rcases List.mem_append.mp h with h | h
      · exact h
      · exact ih h

/-- Dropping while `p` holds skips a block on which `p` holds everywhere. -/
theorem dropWhile_append_all (p : Char → Bool) (l1 l2 : List Char)
    (h : ∀ c ∈ l1, p c = true) :
    List.dropWhile p (l1 ++ l2) = List.dropWhile p l2 := by
  induction l1 with
  | nil => rfl
  | cons x xs ih =>
      have hx : p x = true := h x (by simp)
      simp only [List.cons_append, List.dropWhile_cons, hx, if_true]
      exact ih (fun c hc => h c (by simp [hc]))

/-- Dropping while `p` holds stops at a head on which `p` fails. -/
theorem dropWhile_cons_false (p : Char → Bool) (x : Char) (xs : List Char)
    (h : p x = false) : List.dropWhile p (x :: xs) = x :: xs := by
  simp [List.dropWhile_cons, h]

/-- Stripping a character set from both ends of
`junk ++ (x :: inner ++ [y]) ++ junk` — with the junk entirely inside the set
and `x`, `y` outside it — leaves exactly the middle. -/
theorem stripWhile_sandwich (p : Char → Bool) (x y : Char)
    (inner l1 l2 : List Char)
    (h1 : ∀ c ∈ l1, p c = true) (h2 : ∀ c ∈ l2, p c = true)
    (hx : p x = false) (hy : p y = false) :
    stripWhile p (l1 ++ (x :: (inner ++ [y])) ++ l2)
      = x :: (inner ++ [y]) := by
  unfold stripWhile dropEndWhile
  rw [List.append_assoc, dropWhile_append_all p l1 _ h1]
  rw [show (x :: (inner ++ [y])) ++ l2 = x :: ((inner ++ [y]) ++ l2) by rfl]
  rw [dropWhile_cons_false p x _ hx]
  have hrev : (x :: ((inner ++ [y]) ++ l2)).reverse
      = l2.reverse ++ (y :: (inner.reverse ++ [x])) := by
    simp [List.reverse_cons, List.reverse_append, List.append_assoc]
  rw [hrev,
    dropWhile_append_all p l2.reverse _
      (fun c hc => h2 c (List.mem_reverse.mp hc)),
    dropWhile_cons_false p y _ hy]
  simp [List.reverse_cons, List.reverse_append]

/-- Membership in the reset sequence, as the Boolean `contains` used by the
model of `str.strip(chars)`. -/
theorem reset_contains_true (c : Char)
    (h : c ∈ ColoredFormatter.RESET.data) :
    ColoredFormatter.RESET.data.contains c = true := by
  have : ∀ c ∈ ColoredFormatter.RESET.data,
      ColoredFormatter.RESET.data.contains c = true := by decide
  exact this c h

/-- Stripping the reset characters from a label of the shape
`resets ++ mid ++ resets` recovers `mid` whenever `mid` neither starts nor
ends with a reset character. -/
theorem pyStripChars_reset_sandwich (lvl : String) (x : Char)
    (inner : List Char) (y : Char)
    (hdata : lvl.data = x :: (inner ++ [y]))
    (hx : ColoredFormatter.RESET.data.contains x = false)
    (hy : ColoredFormatter.RESET.data.contains y = false)
    (m n : Nat) :
    pyStripChars (repRESET m ++ lvl ++ repRESET n) ColoredFormatter.RESET
      = lvl := by
  unfold pyStripChars
  have hbig : (repRESET m ++ lvl ++ repRESET n).data
      = (repRESET m).data ++ (x :: (inner ++ [y])) ++ (repRESET n).data := by
    rw [string_data_append, string_data_append, hdata]
  rw [hbig,
    stripWhile_sandwich _ x y inner _ _
      (fun c hc => reset_contains_true c (mem_repRESET m c hc))
      (fun c hc => reset_contains_true c (mem_repRESET n c hc)) hx hy,
    ← hdata]

/-- C9: for every label in the five-value set, formatting a level name that
arrives surrounded by any number of stray reset sequences strips them before
re-coloring and produces exactly the colored label that the untouched plain
label produces. -/
theorem C9_colorize_strips_resets (lvl : String) (hlv : lvl ∈ allowedLevels)
    (m n : Nat) :
    ColoredFormatter.colorize (repRESET m ++ lvl ++ repRESET n)
      = ColoredFormatter.colorize lvl := by
  simp only [allowedLevels, List.mem_cons, List.not_mem_nil, or_false] at hlv
  unfold ColoredFormatter.colorize
  rcases hlv with h | h | h | h | h <;> subst h
  · rw [pyStripChars_reset_sandwich "DEBUG" 'D' ['E', 'B', 'U'] 'G'
      (by rfl) (by decide) (by decide) m n]
    rfl
  · rw [pyStripChars_reset_sandwich "INFO" 'I' ['N', 'F'] 'O'
      (by rfl) (by decide) (by decide) m n]
    rfl
  · rw [pyStripChars_reset_sandwich "WARNING" 'W' ['A', 'R', 'N', 'I', 'N'] 'G'
      (by rfl) (by decide) (by decide) m n]
    rfl
  · rw [pyStripChars_reset_sandwich "ERROR" 'E' ['R', 'R', 'O'] 'R'
      (by rfl) (by decide) (by decide) m n]
    rfl
  · rw [pyStripChars_reset_sandwich "CRITICAL" 'C' ['R', 'I', 'T', 'I', 'C', 'A'] 'L'
      (by rfl) (by decide) (by decide) m n]
    rfl

/-- C9 witness: a DEBUG label wrapped in two stray resets on the left and one
on the right colors to exactly the plain label's colored form. -/
theorem C9_witness :
    ColoredFormatter.colorize (repRESET 2 ++ "DEBUG" ++ repRESET 1)
      = ColoredFormatter.colorize "DEBUG"
    ∧ ColoredFormatter.colorize "DEBUG" = "\x1b[92mDEBUG\x1b[0m" :=
  ⟨C9_colorize_strips_resets "DEBUG" (by decide) 2 1, rfl⟩

/-! ## Characterizing `validate`: aggregation and the directory side effect -/

/-- The `log_level` field validator does not raise: either the field already
fails schema validation (so the validator never runs) or the stripped value
uppercases into the allowed set. -/
def levelNoRaise (raw : RawInput) : Prop :=
  match validateLevelInner raw.log_level with
  | .ok t => pyUpper t ∈ allowedLevels
  | .error _ => True

instance (raw : RawInput) : Decidable (levelNoRaise raw) := by
  unfold levelNoRaise
  cases validateLevelInner raw.log_level with
  | error e => exact inferInstance
  | ok t => exact inferInstance

/-- Whether `mkdir(parents=True, exist_ok=True)` succeeds at this path. -/
def mkdirSucceeds (fs : FileSystem) (p : FPath) : Bool :=
  match fs.mkdirParents p with
  | .ok _ => true
  | .error _ => false

/-- The `log_dir` field validator does not raise: either the field fails
schema validation or `mkdir` succeeds. -/
def dirNoRaise (raw : RawInput) (fs : FileSystem) : Prop :=
  match validateDirInner raw.log_dir with
  | .ok p => mkdirSucceeds fs p = true
  | .error _ => True

instance (raw : RawInput) (fs : FileSystem) : Decidable (dirNoRaise raw fs) := by
  unfold dirNoRaise
  cases validateDirInner raw.log_dir with
  | error e => exact inferInstance
  | ok p => exact inferInstance

/-- The filesystem after the `log_dir` validator has (or has not) run. -/
def postDirFS (raw : RawInput) (fs : FileSystem) : FileSystem :=
  match validateDirInner raw.log_dir with
  | .ok p =>
      match fs.mkdirParents p with
      | .ok fs' => fs'
      | .error _ => fs
  | .error _ => fs

/-- Every schema-level failure of the raw input, in field-declaration order,
extra keys last: the entries the aggregated `ValidationError` would carry. -/
def schemaErrs (raw : RawInput) : List FieldError :=
  errList (validateDirInner raw.log_dir)
    ++ errList (validateLevelInner raw.log_level)
    ++ errList (validateBoolInner raw.log_verbose)
    ++ errList (validateIntInner "max_bytes" 1048576 raw.max_bytes)
    ++ errList (validateIntInner "backup_count" 0 raw.backup_count)
    ++ raw.extra.map FieldError.extraForbidden

/-- The filesystem component of `validate` is always the post-`log_dir` state:
in particular the directory side effect survives any later failure. -/
theorem validate_fst (raw : RawInput) (fs : FileSystem) :
    (validate raw fs).1 = postDirFS raw fs := by
  unfold validate postDirFS ensure_log_dir_exists
  cases hdi : validateDirInner raw.log_dir with
  | error ed =>
      cases hli : validateLevelInner raw.log_level with
      | error e => simp
      | ok t =>
          cases hck : check_log_level t with
          | error ce => simp [hck]
          | ok u => simp [hck]
  | ok p =>
      cases hmk : fs.mkdirParents p with
      | error e => simp [hmk]
      | ok fs2 =>
          cases hli : validateLevelInner raw.log_level with
          | error e => simp [hmk]
          | ok t =>
              cases hck : check_log_level t with
              | error ce => simp [hmk, hck]
              | ok u => simp [hmk, hck]

/-- When neither field validator raises and at least one schema-level failure
exists, `validate` reports the single aggregated `SchemaViolation` listing
exactly all of them. -/
theorem validate_aggregates (raw : RawInput) (fs : FileSystem)
    (hd : dirNoRaise raw fs) (hl : levelNoRaise raw)
    (hbad : schemaErrs raw ≠ []) :
    validate raw fs
      = (postDirFS raw fs, .error (.schemaViolation (schemaErrs raw))) := by
  unfold dirNoRaise at hd
  unfold levelNoRaise at hl
  unfold validate postDirFS schemaErrs at *
  cases hdi : validateDirInner raw.log_dir with
  | ok p =>
      rw [hdi] at hd
      have hd2 : mkdirSucceeds fs p = true := hd
      unfold mkdirSucceeds at hd2
      obtain ⟨fs2, hmk⟩ : ∃ fs2, fs.mkdirParents p = .ok fs2 := by
        cases hmk : fs.mkdirParents p with
        | error e => rw [hmk] at hd2; cases hd2
        | ok fs2 => exact ⟨fs2, rfl⟩
      unfold ensure_log_dir_exists
      cases hli : validateLevelInner raw.log_level with
      | ok t =>
          rw [hli] at hl
          have hl2 : pyUpper t ∈ allowedLevels := hl
          have hcheck : check_log_level t = .ok (pyUpper t) := by
            unfold check_log_level
            simp [hl2]
          cases hv : validateBoolInner raw.log_verbose <;>
            cases hmb : validateIntInner "max_bytes" 1048576 raw.max_bytes <;>
              cases hbc : validateIntInner "backup_count" 0 raw.backup_count <;>
                simp_all [assembleConfig, errList, List.isEmpty_iff]
      | error e =>
          simp_all [assembleConfig, errList]
  | error ed =>
      cases hli : validateLevelInner raw.log_level with
      | ok t =>
          rw [hli] at hl
          have hl2 : pyUpper t ∈ allowedLevels := hl
          have hcheck : check_log_level t = .ok (pyUpper t) := by
            unfold check_log_level
            simp [hl2]
          simp_all [assembleConfig, errList]
      | error e =>
          simp_all [assembleConfig, errList]

/-- A raw input that is schema-invalid only through an unrecognized extra
field, with a valid, not-yet-existing `log_dir`. -/
def rawC5 : RawInput :=
  ⟨some (.vPath ["tmp", "logs"]), some (.vStr "info"), some (.vBool true),
   none, none, ["bogus"]⟩

/-- C5 counterexample: `validate rawC5` does fail with a `SchemaViolation`,
but the directory-creation field validator has executed on this rejected
input — the previously absent `tmp/logs` (and its parent) exist afterwards —
refuting the claim that the failure precedes every field-specific validator. -/
theorem C5_counterexample :
    (validate rawC5 fs0).2
      = .error (.schemaViolation [.extraForbidden "bogus"])
    ∧ fs0.dirs = []
    ∧ (validate rawC5 fs0).1.dirs = [["tmp"], ["tmp", "logs"]] :=
  ⟨rfl, rfl, rfl⟩

/-- C5 (amended): an input with an unrecognized extra field, an
empty/whitespace-only string field, or a mistyped field is rejected with the
single aggregated `SchemaViolation` — provided no field validator raises
first — but the failure does **not** precede the field-specific validators of
the fields that individually pass: the directory-creation validator for a
schema-valid `log_dir` runs, and its side effect persists, even though
`validate` fails. -/
theorem C5_schema_violation_after_dir_side_effect (raw : RawInput)
    (fs fs' : FileSystem) (p : FPath)
    (hdir : validateDirInner raw.log_dir = .ok p)
    (hmk : fs.mkdirParents p = .ok fs')
    (hl : levelNoRaise raw)
    (hbad : schemaErrs raw ≠ []) :
    (validate raw fs).2 = .error (.schemaViolation (schemaErrs raw))
    ∧ (validate raw fs).1 = fs' := by
  have hd : dirNoRaise raw fs := by
    unfold dirNoRaise
    rw [hdir]
    show mkdirSucceeds fs p = true
    unfold mkdirSucceeds
    rw [hmk]
  have h := validate_aggregates raw fs hd hl hbad
  constructor
  · rw [h]
  · rw [validate_fst]
    unfold postDirFS
    simp [hdir, hmk]

/-- C5 witness: the amended theorem applied to `rawC5` on the empty
filesystem. -/
theorem C5_witness :
    (validate rawC5 fs0).2
      = .error (.schemaViolation (schemaErrs rawC5))
    ∧ (validate rawC5 fs0).1
      = ⟨[["tmp"], ["tmp", "logs"]], [], [], []⟩ :=
  C5_schema_violation_after_dir_side_effect rawC5 fs0
    ⟨[["tmp"], ["tmp", "logs"]], [], [], []⟩ ["tmp", "logs"]
    rfl rfl (by decide) (by decide)

/-- A raw input in which two fields are invalid: `log_level` fails its
membership check and `max_bytes` is not coercible to an integer. -/
def rawC6 : RawInput :=
  ⟨some (.vPath ["t"]), some (.vStr "BOGUS"), some (.vBool true),
   some (.vStr "xx"), none, []⟩

/-- C6 counterexample: on `rawC6` two fields are invalid, yet the caller
receives the immediately-raised `InvalidLevel` failure, whose context names
only `log_level`; the `max_bytes` failure (demonstrated by validating the same
input with the level repaired) is not identifiable from it — refuting the
aggregated-failure claim for inputs that trip a raising field validator. -/
theorem C6_counterexample :
    (validate rawC6 fs0).2 = .error (.invalidLevel allowedLevels)
    ∧ (ConfigError.invalidLevel allowedLevels).mentionedFields = ["log_level"]
    ∧ validateIntInner "max_bytes" 1048576 rawC6.max_bytes
        = .error (.wrongType "max_bytes")
    ∧ (validate ⟨rawC6.log_dir, some (.vStr "info"), rawC6.log_verbose,
          rawC6.max_bytes, rawC6.backup_count, rawC6.extra⟩ fs0).2
        = .error (.schemaViolation [.wrongType "max_bytes"]) :=
  ⟨rfl, rfl, rfl, rfl⟩

/-- C6 (amended): whenever every failure of the raw input is schema-level —
no custom field validator raises — `validate` reports one aggregated
`SchemaViolation` listing exactly the failures of every invalid field (in
declaration order, extra keys last), each entry naming its field; no partial
record is returned.  When a field validator raises (invalid level, failed
directory creation), validation instead aborts at once and reports only that
field. -/
theorem C6_aggregated_failure (raw : RawInput) (fs : FileSystem)
    (hd : dirNoRaise raw fs) (hl : levelNoRaise raw)
    (hbad : schemaErrs raw ≠ []) :
    (validate raw fs).2 = .error (.schemaViolation (schemaErrs raw))
    ∧ ∀ e ∈ schemaErrs raw,
        e.fieldName
          ∈ (ConfigError.schemaViolation (schemaErrs raw)).mentionedFields := by
  have h := validate_aggregates raw fs hd hl hbad
  constructor
  · rw [h]
  · intro e he
    unfold ConfigError.mentionedFields
    exact List.mem_map_of_mem _ he

/-- A raw input with three independent schema failures: a mistyped
`log_verbose`, a missing `log_level`... rather, an empty `log_level`, and an
extra key. -/
def rawC6w : RawInput :=
  ⟨some (.vPath ["t"]), some (.vStr " "), some (.vInt 7), none, none, ["zzz"]⟩

/-- C6 witness: on `rawC6w` the single failure lists the empty `log_level`,
the mistyped `log_verbose`, and the extra key together. -/
theorem C6_witness :
    (validate rawC6w fs0).2
      = .error (.schemaViolation
          [.stringTooShort "log_level", .wrongType "log_verbose",
           .extraForbidden "zzz"])
    ∧ FieldError.fieldName (.wrongType "log_verbose")
        ∈ (ConfigError.schemaViolation (schemaErrs rawC6w)).mentionedFields := by
  have h := C6_aggregated_failure rawC6w fs0 (by decide) (by decide) (by decide)
  exact ⟨h.1, h.2 (.wrongType "log_verbose") (by decide)⟩

/-! ## C7: file-sink open failure is fatal -/

/-- C7: when opening the rotating file sink raises, `build` surfaces exactly
that original `OSError` to the caller and produces no logger; and every
successful `build` — the only other outcome — carries both the console and the
file sink, so no console-only fallback logger can exist. -/
theorem C7_sink_open_failure_is_fatal (name ts : String) (cfg : LoggerConfig)
    (fs : FileSystem) (e : OSErr)
    (hopen : fs.openAppend (cfg.log_dir ++ [ts ++ ".log"]) = .error e) :
    CustomLogger.build name cfg ts fs = (fs, .error e)
    ∧ (∀ (nm ts2 : String) (cfg2 : LoggerConfig) (fs2 fs3 : FileSystem)
        (lg : CustomLogger),
        CustomLogger.build nm cfg2 ts2 fs2 = (fs3, .ok lg) →
        lg.handlers = [Sink.console lg.level,
          Sink.rotatingFile lg.level lg.log_file lg.max_bytes
            lg.backup_count]) := by
  constructor
  · simp only [CustomLogger.build]
    rw [hopen]
  · intro nm ts2 cfg2 fs2 fs3 lg hb
    have h := build_ok_elim nm ts2 cfg2 fs2 fs3 lg hb
    subst h
    rfl

/-- A filesystem whose directory exists but where opening the log file raises
`EACCES`. -/
def fsC7 : FileSystem :=
  ⟨[["l"]], [], [], [(["l", "ts.log"], "EACCES: permission denied")]⟩

/-- C7 witness: on `fsC7` the assembly fails with exactly the underlying
`OSError` and no logger. -/
theorem C7_witness :
    CustomLogger.build "t" cfgW "ts" fsC7
      = (fsC7, .error "EACCES: permission denied") :=
  (C7_sink_open_failure_is_fatal "t" "ts" cfgW fsC7
    "EACCES: permission denied" rfl).1

/-! ## C8: `log_dir` resolution -/

/-- `mkdir` on an existing directory is a successful no-op. -/
theorem mkdirParents_pre_exists (fs : FileSystem) (p : FPath)
    (h : fs.dirExists p = true) : fs.mkdirParents p = .ok fs := by
  unfold FileSystem.mkdirParents
  simp [h]

/-- `mkdir` on an absent, fault-free path creates the missing ancestors. -/
theorem mkdirParents_creates (fs : FileSystem) (p : FPath)
    (h : fs.dirExists p = false) (hok : fs.mkdirErr.lookup p = none) :
    fs.mkdirParents p
      = .ok { fs with
              dirs := fs.dirs
                ++ (ancestorsOf p).filter (fun q => q ∉ fs.dirs) } := by
  unfold FileSystem.mkdirParents
  simp [h, hok]

/-- `mkdir` on an absent path with a registered fault raises it. -/
theorem mkdirParents_fails (fs : FileSystem) (p : FPath) (e : OSErr)
    (h : fs.dirExists p = false) (he : fs.mkdirErr.lookup p = some e) :
    fs.mkdirParents p = .error e := by
  unfold FileSystem.mkdirParents
  simp [h, he]

/-- After the creating `mkdir`, every ancestor of the path exists. -/
theorem dirExists_created (fs : FileSystem) (p q : FPath)
    (hq : q ∈ ancestorsOf p) :
    FileSystem.dirExists
      { fs with
        dirs := fs.dirs ++ (ancestorsOf p).filter (fun r => r ∉ fs.dirs) } q
      = true := by
  unfold FileSystem.dirExists
  by_cases hm : q ∈ fs.dirs
  · simp [List.mem_append, hm]
  · simp [List.mem_append, List.mem_filter, hq, hm]

/-- C8: for a schema-valid `log_dir`, validation resolves the directory
exactly as claimed: an absent creatable directory is created together with all
missing ancestors as a side effect; a pre-existing directory leaves the
filesystem untouched; and an I/O failure of the creation aborts `validate`
with the `DirectoryCreationFailed` error wrapping that failure, changing
nothing. -/
theorem C8_log_dir_resolution (raw : RawInput) (fs : FileSystem) (p : FPath)
    (hdir : validateDirInner raw.log_dir = .ok p) :
    (fs.dirExists p = false → fs.mkdirErr.lookup p = none →
        ∀ q ∈ ancestorsOf p, (validate raw fs).1.dirExists q = true)
    ∧ (fs.dirExists p = true → (validate raw fs).1 = fs)
    ∧ (∀ e, fs.dirExists p = false → fs.mkdirErr.lookup p = some e →
        (validate raw fs).2 = .error (.directoryCreationFailed p e)
        ∧ (validate raw fs).1 = fs) := by
  refine ⟨?_, ?_, ?_⟩
  · intro h hok q hq
    rw [validate_fst]
    unfold postDirFS
    simp only [hdir, mkdirParents_creates fs p h hok]
    exact dirExists_created fs p q hq
  · intro h
    rw [validate_fst]
    unfold postDirFS
    simp only [hdir, mkdirParents_pre_exists fs p h]
  · intro e h he
    have hmk := mkdirParents_fails fs p e h he
    constructor
    · simp only [validate, hdir, ensure_log_dir_exists, hmk]
    · rw [validate_fst]
      unfold postDirFS
      simp only [hdir, hmk]

/-- A raw input whose `log_dir` is the absent nested path `a/b`. -/
def rawC8 : RawInput :=
  ⟨some (.vPath ["a", "b"]), some (.vStr "error"), some (.vBool false),
   none, none, []⟩

/-- C8 witness: validating `rawC8` on the empty filesystem creates both `a/b`
and its parent `a`. -/
theorem C8_witness :
    (validate rawC8 fs0).1.dirExists ["a", "b"] = true
    ∧ (validate rawC8 fs0).1.dirExists ["a"] = true := by
  have h := C8_log_dir_resolution rawC8 fs0 ["a", "b"] rfl
  exact ⟨h.1 rfl rfl ["a", "b"] (by decide), h.1 rfl rfl ["a"] (by decide)⟩

/-! ## C10: the validated-record invariant -/

/-- A nonempty path is among its own ancestors. -/
theorem self_mem_ancestorsOf (p : FPath) (h : p ≠ []) :
    p ∈ ancestorsOf p := by
  induction p with
  | nil => exact absurd rfl h
  | cons c rest ih =>
      unfold ancestorsOf
      cases rest with
      | nil => simp
      | cons d rest2 =>
          apply List.mem_cons_of_mem
          rw [List.mem_map]
          exact ⟨d :: rest2, ih (by simp), rfl⟩

/-- A successful `mkdir` leaves the target directory existing. -/
theorem mkdirParents_dirExists (fs fs' : FileSystem) (p : FPath)
    (h : fs.mkdirParents p = .ok fs') : fs'.dirExists p = true := by
  unfold FileSystem.mkdirParents at h
  cases hde : fs.dirExists p with
  | true =>
      rw [hde] at h
      simp only [if_true] at h
      cases h
      exact hde
  | false =>
      rw [hde] at h
      simp only [Bool.false_eq_true, if_false] at h
      cases hlk : fs.mkdirErr.lookup p with
      | some e => rw [hlk] at h; cases h
      | none =>
          rw [hlk] at h
          simp only [Except.ok.injEq] at h
          have hne : p ≠ [] := by
            intro hp
            rw [hp] at hde
            unfold FileSystem.dirExists at hde
            simp at hde
          rw [← h]
          exact dirExists_created fs p p (self_mem_ancestorsOf p hne)

/-- A successful `check_log_level` yields a member of the allowed set. -/
theorem check_log_level_ok_mem (t u : String)
    (h : check_log_level t = .ok u) : u ∈ allowedLevels := by
  unfold check_log_level at h
  by_cases hm : pyUpper t ∈ allowedLevels
  · rw [if_pos hm] at h
    simp only [Except.ok.injEq] at h
    rw [← h]
    exact hm
  · rw [if_neg hm] at h
    cases h

/-- The invariant of a constructed `LoggerConfig` against the current
filesystem: its directory exists and its level is in the recognized set. -/
def ConfigInvariant (cfg : LoggerConfig) (fs : FileSystem) : Prop :=
  fs.dirExists cfg.log_dir = true ∧ cfg.log_level ∈ allowedLevels

instance (cfg : LoggerConfig) (fs : FileSystem) :
    Decidable (ConfigInvariant cfg fs) := by
  unfold ConfigInvariant
  exact inferInstance

/-- Construction establishes the invariant. -/
theorem validate_ok_invariant (raw : RawInput) (fs fs' : FileSystem)
    (cfg : LoggerConfig) (h : validate raw fs = (fs', .ok cfg)) :
    ConfigInvariant cfg fs' := by
  unfold validate at h
  cases hdi : validateDirInner raw.log_dir with
  | error ed =>
      cases hli : validateLevelInner raw.log_level with
      | error e => simp [hdi, hli, assembleConfig] at h
      | ok t =>
          cases hck : check_log_level t with
          | error ce => simp [hdi, hli, hck] at h
          | ok u => simp [hdi, hli, hck, assembleConfig] at h
  | ok p =>
      cases hmk : fs.mkdirParents p with
      | error e => simp [hdi, ensure_log_dir_exists, hmk] at h
      | ok fs2 =>
          cases hli : validateLevelInner raw.log_level with
          | error e =>
              simp [hdi, ensure_log_dir_exists, hmk, hli, assembleConfig] at h
          | ok t =>
              cases hck : check_log_level t with
              | error ce =>
                  simp [hdi, ensure_log_dir_exists, hmk, hli, hck] at h
              | ok u =>
                  cases hv : validateBoolInner raw.log_verbose with
                  | error e =>
                      simp [hdi, ensure_log_dir_exists, hmk, hli, hck, hv,
                        assembleConfig] at h
                  | ok b =>
                      cases hmb : validateIntInner "max_bytes" 1048576
                          raw.max_bytes with
                      | error e =>
                          simp [hdi, ensure_log_dir_exists, hmk, hli, hck, hv,
                            hmb, assembleConfig] at h
                      | ok mb =>
                          cases hbc : validateIntInner "backup_count" 0
                              raw.backup_count with
                          | error e =>
                              simp [hdi, ensure_log_dir_exists, hmk, hli, hck,
                                hv, hmb, hbc, assembleConfig] at h
                          | ok bc =>
                              by_cases hx : raw.extra.isEmpty
                              · simp [hdi, ensure_log_dir_exists, hmk, hli,
                                  hck, hv, hmb, hbc, assembleConfig, hx] at h
                                obtain ⟨h1, h2⟩ := h
                                subst h1
                                rw [← h2]
                                exact ⟨mkdirParents_dirExists fs fs2 p hmk,
                                  check_log_level_ok_mem t u hck⟩
                              · simp [hdi, ensure_log_dir_exists, hmk, hli,
                                  hck, hv, hmb, hbc, assembleConfig, hx] at h

/-- Each re-validating assignment preserves the invariant: either the new
value passes all of that field's validation (and for `log_dir` the directory
is created first), or the raised error leaves the instance unchanged. -/
theorem applyAssign_invariant (cfg : LoggerConfig) (fs : FileSystem)
    (op : AssignOp) (h : ConfigInvariant cfg fs) :
    ConfigInvariant (applyAssign (cfg, fs) op).1
      (applyAssign (cfg, fs) op).2 := by
  obtain ⟨h1, h2⟩ := h
  cases op with
  | setDir v =>
      simp only [applyAssign]
      cases hdi : validateDirInner (some v) with
      | error e => exact ⟨h1, h2⟩
      | ok p =>
          cases hen : ensure_log_dir_exists fs p with
          | error ce => simp only [hen]; exact ⟨h1, h2⟩
          | ok pr =>
              obtain ⟨q, fs'⟩ := pr
              have hmk : fs.mkdirParents p = .ok fs' := by
                unfold ensure_log_dir_exists at hen
                cases hmk2 : fs.mkdirParents p with
                | error e => rw [hmk2] at hen; cases hen
                | ok fs3 =>
                    rw [hmk2] at hen
                    simp only [Except.ok.injEq, Prod.mk.injEq] at hen
                    rw [hen.2]
              simp only [hen]
              exact ⟨mkdirParents_dirExists fs fs' p hmk, h2⟩
  | setLevel v =>
      simp only [applyAssign]
      cases hli : validateLevelInner (some v) with
      | error e => exact ⟨h1, h2⟩
      | ok t =>
          cases hck : check_log_level t with
          | error ce => simp only [hck]; exact ⟨h1, h2⟩
          | ok u =>
              simp only [hck]
              exact ⟨h1, check_log_level_ok_mem t u hck⟩
  | setVerbose v =>
      simp only [applyAssign]
      cases hv : validateBoolInner (some v) with
      | error e => exact ⟨h1, h2⟩
      | ok b => exact ⟨h1, h2⟩
  | setMaxBytes v =>
      simp only [applyAssign]
      cases hv : validateIntInner "max_bytes" 1048576 (some v) with
      | error e => exact ⟨h1, h2⟩
      | ok n => exact ⟨h1, h2⟩
  | setBackupCount v =>
      simp only [applyAssign]
      cases hv : validateIntInner "backup_count" 0 (some v) with
      | error e => exact ⟨h1, h2⟩
      | ok n => exact ⟨h1, h2⟩

/-- The invariant survives any sequence of subsequent assignments. -/
theorem applyAssigns_invariant (cfg : LoggerConfig) (fs : FileSystem)
    (ops : List AssignOp) (h : ConfigInvariant cfg fs) :
    ConfigInvariant (applyAssigns (cfg, fs) ops).1
      (applyAssigns (cfg, fs) ops).2 := by
  induction ops generalizing cfg fs with
  | nil => exact h
  | cons op rest ih =>
      unfold applyAssigns at *
      rw [List.foldl_cons]
      have hstep := applyAssign_invariant cfg fs op h
      cases hst : applyAssign (cfg, fs) op with
      | mk c' f' =>
          rw [hst] at hstep
          exact ih c' f' hstep

/-- C10: a `LoggerConfig` instance that `validate` constructs satisfies the
invariant — its directory exists on the resulting filesystem and its level is
one of the five recognized labels — and every subsequent sequence of
re-validated field assignments preserves it: no operation yields a
partially-valid instance. -/
theorem C10_invariant_all_operations (raw : RawInput) (fs fs' : FileSystem)
    (cfg : LoggerConfig) (ops : List AssignOp)
    (h : validate raw fs = (fs', .ok cfg)) :
    ConfigInvariant cfg fs'
    ∧ ConfigInvariant (applyAssigns (cfg, fs') ops).1
        (applyAssigns (cfg, fs') ops).2 := by
  have h0 := validate_ok_invariant raw fs fs' cfg h
  exact ⟨h0, applyAssigns_invariant cfg fs' ops h0⟩

/-- A concrete operation sequence with both failing and succeeding
assignments. -/
def opsC10 : List AssignOp :=
  [.setLevel (.vStr "BOGUS"), .setDir (.vPath ["x", "y"]),
   .setMaxBytes (.vInt 2), .setLevel (.vStr " info ")]

/-- C10 witness: the invariant holds at the concretely validated record and
after running `opsC10` on it. -/
theorem C10_witness :
    ConfigInvariant ⟨["w1"], "DEBUG", true, 1048576, 0⟩
      ⟨[["w1"]], [], [], []⟩
    ∧ ConfigInvariant
        (applyAssigns (⟨["w1"], "DEBUG", true, 1048576, 0⟩,
          ⟨[["w1"]], [], [], []⟩) opsC10).1
        (applyAssigns (⟨["w1"], "DEBUG", true, 1048576, 0⟩,
          ⟨[["w1"]], [], [], []⟩) opsC10).2 :=
  C10_invariant_all_operations rawC1w fs0 ⟨[["w1"]], [], [], []⟩
    ⟨["w1"], "DEBUG", true, 1048576, 0⟩ opsC10 rfl

end LoggerV2
